import Mathlib

/-!
Verification development for the liveliness-detection browser client
(`static/script.js`): a webcam capture page with a session controller
(`startDetection` / `stopDetection`), a render loop driven by
`requestAnimationFrame`, a prediction loop driven by `setInterval` plus an
asynchronous `fetch` continuation, and an overlay renderer
(`drawPredictions`) that draws bounding boxes and labels on a 2D canvas.

The script is embedded as a shallow state machine: every event handler of
the page (button clicks, camera-promise resolution, timer ticks, fetch
resolutions, animation frames) becomes a pure function from an `AppState`
to an `AppState` paired with a list of externally observable effects.
Canvas drawing is embedded as a list of drawing commands together with the
threaded mutable context state (strokeStyle, fillStyle, lineWidth, font);
two equal command lists applied to a cleared surface produce identical
pixels, and command lists that differ in a rectangle geometry produce
different pixels.  Text metrics (`ctx.measureText`) are external to the
script, so the semantics is parametric in a `Measure` function from font
and text to a width.
-/

namespace Liveliness

/-- One detection returned by the prediction service:
`{ box: [x, y, w, h], label, confidence }` (script.js lines 126-128). -/
structure Prediction where
  box : ℚ × ℚ × ℚ × ℚ
  label : String
  confidence : ℚ
deriving DecidableEq

/-- JavaScript `Math.round`: round half toward positive infinity. -/
def jsRound (q : ℚ) : ℤ := ⌊q + 1/2⌋

/-- The mutable fields of the 2D canvas context that script.js touches. -/
structure CtxState where
  strokeStyle : String
  fillStyle : String
  lineWidth : ℚ
  font : String
deriving DecidableEq

/-- Primitive canvas drawing commands issued by the script, each recording
the context attributes in force at the moment of the call. -/
inductive DrawCmd where
  | strokeRect (style : String) (lineWidth : ℚ) (x y w h : ℚ)
  | fillRect (style : String) (x y w h : ℚ)
  | fillText (style : String) (font : String) (text : String) (x y : ℚ)
deriving DecidableEq

/-- Text metrics oracle: `measure font text` is the width that
`ctx.measureText(text).width` reports while `ctx.font = font`.  The
browser's font rasterizer is external to the script, so the embedding is
parametric in it. -/
abbrev Measure := String → String → ℚ

/-- The label-keyed color rule of script.js line 131:
green `#00FF00` for the label `Original`, red `#FF0000` for every other
label. -/
def labelColor (label : String) : String :=
  if label = "Original" then "#00FF00" else "#FF0000"

/-- The label text of script.js line 136:
`label: <Math.round(confidence*100)>%`. -/
def labelText (p : Prediction) : String :=
  p.label ++ ": " ++ toString (jsRound (p.confidence * 100)) ++ "%"

/-- The body of the `predictions.forEach` callback in `drawPredictions`
(script.js lines 125-144), threading the context state and emitting the
three drawing calls in source order.  Note that `ctx.measureText` (line
139) runs with the context's current font: `ctx.font = '18px Arial'` is
only assigned afterwards, on line 142. -/
def drawPred (m : Measure) (c : CtxState) (p : Prediction) :
    CtxState × List DrawCmd :=
  let (x, y, w, h) := p.box
  let c1 : CtxState := { c with strokeStyle := labelColor p.label, lineWidth := 3 }
  let cmd1 := DrawCmd.strokeRect c1.strokeStyle c1.lineWidth x y w h
  let text := labelText p
  let textBgHeight : ℚ := 24
  let c2 : CtxState := { c1 with fillStyle := c1.strokeStyle }
  let cmd2 := DrawCmd.fillRect c2.fillStyle x
    (if y > textBgHeight then y - textBgHeight else y)
    (m c2.font text + 10) textBgHeight
  let c3 : CtxState := { c2 with fillStyle := "#FFFFFF", font := "18px Arial" }
  let cmd3 := DrawCmd.fillText c3.fillStyle c3.font text (x + 5)
    (if y > textBgHeight then y - 5 else 18)
  (c3, [cmd1, cmd2, cmd3])

/-- The `predictions.forEach(...)` loop of `drawPredictions`
(script.js lines 125-144): fold `drawPred` over the detection list. -/
def drawPredictionsRun (m : Measure) : CtxState → List Prediction → CtxState × List DrawCmd
  | c, [] => (c, [])
  | c, p :: rest =>
    ((drawPredictionsRun m (drawPred m c p).1 rest).1,
     (drawPred m c p).2 ++ (drawPredictionsRun m (drawPred m c p).1 rest).2)

/-- Status messages written by script.js, verbatim. -/
def idleMsg : String := "Click \"Start Detection\" to begin."

def initializingMsg : String := "Initializing Webcam..."

def webcamActiveMsg : String := "Webcam active. Detecting..."

def webcamErrorMsg : String :=
  "<strong>Error:</strong> Could not access webcam. Please check permissions."

def detectionActiveMsg : String := "Detection active."

def noFaceMsg : String := "No face detected. Looking..."

/-- `drawPredictions(predictions)` (script.js lines 124-149): draw every
detection, then, when `isDetecting` holds, update the status text to
`Detection active.` or `No face detected. Looking...` according to whether
the list is nonempty.  Returns the final context state, the drawing
commands, and the optional status update. -/
def drawPredictions (m : Measure) (isDetecting : Bool) (c : CtxState)
    (preds : List Prediction) : CtxState × List DrawCmd × Option String :=
  ((drawPredictionsRun m c preds).1, (drawPredictionsRun m c preds).2,
    if isDetecting then
      some (if preds.length > 0 then detectionActiveMsg else noFaceMsg)
    else none)

/-- The module-level mutable state of script.js (lines 14-17) together with
the DOM state the script reads and writes: button disabled flags, the
status text, the video element's `srcObject`, and the canvas context
state.  Stream objects and interval ids are abstracted to natural-number
handles. -/
structure AppState where
  stream : Option ℕ
  isDetecting : Bool
  latestPredictions : List Prediction
  predictionIntervalId : Option ℕ
  statusText : String
  startDisabled : Bool
  stopDisabled : Bool
  videoSrcObject : Option ℕ
  ctx : CtxState
deriving DecidableEq

/-- Externally observable effects of one handler activation: DOM status
writes, media-track release, timer management, canvas clearing, the
outgoing `fetch('/predict', ...)`, and animation-frame scheduling. -/
inductive Eff where
  | setStatus (msg : String)
  | requestCamera
  | attachVideo (streamId : ℕ)
  | playVideo
  | startIntervalTimer (id : ℕ)
  | clearIntervalTimer (id : Option ℕ)
  | stopTracks (streamId : ℕ)
  | clearCanvas
  | drawVideoFrame
  | drawCmds (cmds : List DrawCmd)
  | sendPredictRequest
  | scheduleAnimationFrame
deriving DecidableEq

/-- Outcome of one `fetch('/predict', ...)` round trip as observed by the
script: either the transport fails (the promise rejects), or a response
arrives with an HTTP status and, when the script goes on to call
`response.json()`, a body that parses to a detection list (`some ps`) or
fails to parse (`none`). -/
inductive FetchOutcome where
  | transportError
  | response (status : ℕ) (body : Option (List Prediction))
deriving DecidableEq

/-- `Response.ok` of the fetch API: HTTP status in the range 200-299. -/
def statusOk (status : ℕ) : Bool := 200 ≤ status && status ≤ 299

/-- `stopDetection()` (script.js lines 52-70): clear the active flag,
reset the buttons and the status text, clear the interval timer, stop the
tracks of the held stream when one is held, detach the video element,
empty the detection slot and clear the canvas.  Faithful detail: the
`stream` variable and the `predictionIntervalId` variable are NOT reset to
null — only their resources are released. -/
def stopDetection (s : AppState) : AppState × List Eff :=
  let s1 : AppState := { s with isDetecting := false, startDisabled := false,
                                stopDisabled := true, statusText := idleMsg }
  let trackEffs : List Eff := match s1.stream with
    | some sid => [Eff.stopTracks sid]
    | none => []
  let s2 : AppState := { s1 with videoSrcObject := none, latestPredictions := [] }
  (s2, [Eff.setStatus idleMsg, Eff.clearIntervalTimer s.predictionIntervalId]
        ++ trackEffs ++ [Eff.clearCanvas])

/-- The synchronous entry of `startDetection()` (script.js lines 26-33, up
to the `await`): set the active flag TRUE immediately, flip the buttons,
write the initializing status, and issue the camera request.  The
`getUserMedia` promise resolves later as a `cameraOk` or `cameraFail`
event. -/
def startDetection (s : AppState) : AppState × List Eff :=
  ({ s with isDetecting := true, startDisabled := true, stopDisabled := false,
            statusText := initializingMsg },
   [Eff.setStatus initializingMsg, Eff.requestCamera])

/-- Resumption of `startDetection` after `getUserMedia` resolves
successfully (script.js lines 33-35): store the stream, attach it to the
video element, and register the `loadedmetadata` listener (whose firing is
the separate `loadedMetadata` event). -/
def cameraGranted (s : AppState) (sid : ℕ) : AppState × List Eff :=
  ({ s with stream := some sid, videoSrcObject := some sid },
   [Eff.attachVideo sid])

/-- The `loadedmetadata` listener (script.js lines 35-41): play the video,
write the active status, schedule the first render-loop frame and start
the prediction interval timer with a fresh id. -/
def onLoadedMetadata (s : AppState) (intervalId : ℕ) : AppState × List Eff :=
  ({ s with statusText := webcamActiveMsg, predictionIntervalId := some intervalId },
   [Eff.playVideo, Eff.setStatus webcamActiveMsg, Eff.scheduleAnimationFrame,
    Eff.startIntervalTimer intervalId])

/-- The `catch` of `startDetection` (script.js lines 42-46), reached when
`getUserMedia` rejects: write the error message to the status surface,
then call `stopDetection()` — which overwrites that status with the idle
prompt. -/
def cameraDenied (s : AppState) : AppState × List Eff :=
  ((stopDetection { s with statusText := webcamErrorMsg }).1,
   Eff.setStatus webcamErrorMsg :: (stopDetection { s with statusText := webcamErrorMsg }).2)

/-- `renderLoop()` (script.js lines 75-85): when the active flag is false,
return without drawing and without rescheduling; otherwise draw the video
frame, draw the latest predictions (which also updates the status text),
and reschedule via `requestAnimationFrame`. -/
def renderLoop (m : Measure) (s : AppState) : AppState × List Eff :=
  if s.isDetecting then
    let r := drawPredictions m s.isDetecting s.ctx s.latestPredictions
    let newStatus := match r.2.2 with
      | some t => t
      | none => s.statusText
    let statusEffs : List Eff := match r.2.2 with
      | some t => [Eff.setStatus t]
      | none => []
    ({ s with ctx := r.1, statusText := newStatus },
     [Eff.drawVideoFrame, Eff.drawCmds r.2.1] ++ statusEffs
       ++ [Eff.scheduleAnimationFrame])
  else (s, [])

/-- The synchronous part of one `predictionLoop()` activation (script.js
lines 90-106, up to the `await fetch`): a no-op when the session is
inactive, otherwise snapshot a frame and issue the POST.  The round
trip resolves later as a `predictionResolve` event. -/
def predictionLoop (s : AppState) : AppState × List Eff :=
  if s.isDetecting then (s, [Eff.sendPredictRequest]) else (s, [])

/-- Resumption of `predictionLoop` after the `fetch` settles (script.js
lines 102-118).  A transport rejection, a non-ok HTTP status (the explicit
`throw` on line 109), or a `response.json()` parse failure all land in the
`catch` and empty the detection slot; an ok status with a parsing body
overwrites the slot with the parsed list.  Faithful detail: the handler
never re-checks `isDetecting`, so the assignment happens even when the
session was stopped while the request was in flight. -/
def predictionResolve (s : AppState) (o : FetchOutcome) : AppState × List Eff :=
  match o with
  | .transportError => ({ s with latestPredictions := [] }, [])
  | .response status body =>
    if statusOk status then
      match body with
      | some ps => ({ s with latestPredictions := ps }, [])
      | none => ({ s with latestPredictions := [] }, [])
    else ({ s with latestPredictions := [] }, [])

/-- Environment events that activate the script's handlers.  Each
activation runs to completion on the single-threaded cooperative
scheduler. -/
inductive Event where
  | startClick
  | cameraOk (streamId : ℕ)
  | cameraFail
  | loadedMetadata (intervalId : ℕ)
  | stopClick
  | renderFrame
  | predictionTick
  | predictionResolve (o : FetchOutcome)
deriving DecidableEq

/-- Dispatch one event to the handler script.js installs for it. -/
def step (m : Measure) (s : AppState) : Event → AppState × List Eff
  | .startClick => startDetection s
  | .cameraOk sid => cameraGranted s sid
  | .cameraFail => cameraDenied s
  | .loadedMetadata i => onLoadedMetadata s i
  | .stopClick => stopDetection s
  | .renderFrame => renderLoop m s
  | .predictionTick => predictionLoop s
  | .predictionResolve o => predictionResolve s o

/-- Run a sequence of events, accumulating the effect trace. -/
def run (m : Measure) : AppState → List Event → AppState × List Eff
  | s, [] => (s, [])
  | s, e :: es =>
    ((run m (step m s e).1 es).1,
     (step m s e).2 ++ (run m (step m s e).1 es).2)

/-- The page's initial state: no stream, inactive, empty slot, no timer,
and the canvas context at its browser defaults (font `10px sans-serif`,
black styles, line width 1). -/
def initState : AppState :=
  { stream := none, isDetecting := false, latestPredictions := [],
    predictionIntervalId := none, statusText := "",
    startDisabled := false, stopDisabled := true, videoSrcObject := none,
    ctx := { strokeStyle := "#000000", fillStyle := "#000000",
             lineWidth := 1, font := "10px sans-serif" } }

/-- The component of the script that each event activates. -/
inductive Component where
  | sessionController
  | renderLoopC
  | predictionLoopC
deriving DecidableEq

/-- Classify events by owning component: clicks and camera / metadata
callbacks belong to the session controller, animation frames to the
render loop, interval ticks and fetch resolutions to the prediction
loop. -/
def eventComponent : Event → Component
  | .startClick => .sessionController
  | .cameraOk _ => .sessionController
  | .cameraFail => .sessionController
  | .loadedMetadata _ => .sessionController
  | .stopClick => .sessionController
  | .renderFrame => .renderLoopC
  | .predictionTick => .predictionLoopC
  | .predictionResolve _ => .predictionLoopC

/-- A concrete text-metrics oracle for closed evaluations: widths differ
between the browser default font and `18px Arial`, as real font metrics
do. -/
def measureDemo : Measure := fun f _ => if f = "18px Arial" then 100 else 50

/-- The detection of the specification's worked example:
`{"box":[10,20,30,40],"label":"Original","confidence":0.97}`. -/
def demoDetection : Prediction :=
  { box := (10, 20, 30, 40), label := "Original", confidence := 97/100 }

/-- A canvas context whose font is already `18px Arial`, as it is after
any prediction has ever been drawn. -/
def arialCtx : CtxState :=
  { strokeStyle := "#000000", fillStyle := "#000000", lineWidth := 1,
    font := "18px Arial" }

/-- Two app states that agree on every field except (possibly) the shared
detection slot `latestPredictions`. -/
def agreeExceptSlot (a b : AppState) : Prop :=
  a.stream = b.stream ∧ a.isDetecting = b.isDetecting ∧
  a.predictionIntervalId = b.predictionIntervalId ∧
  a.statusText = b.statusText ∧ a.startDisabled = b.startDisabled ∧
  a.stopDisabled = b.stopDisabled ∧ a.videoSrcObject = b.videoSrcObject ∧
  a.ctx = b.ctx

/-- The label text of the worked example: `0.97` rounds to the whole
percent `97`. -/
theorem demoText : labelText demoDetection = "Original: 97%" := by
  have h2 : jsRound (demoDetection.confidence * 100) = 97 := by
    norm_num [jsRound, demoDetection]
  show demoDetection.label ++ ": " ++
    toString (jsRound (demoDetection.confidence * 100)) ++ "%" = _
  rw [h2]
  decide

/-- After drawing one detection, the canvas context state is completely
determined by the detection's label: `drawPred` overwrites all four
tracked context attributes. -/
theorem drawPred_fst (m : Measure) (c : CtxState) (p : Prediction) :
    (drawPred m c p).1 =
      { strokeStyle := labelColor p.label, fillStyle := "#FFFFFF",
        lineWidth := 3, font := "18px Arial" } := by
  obtain ⟨⟨x, y, w, h⟩, l, cf⟩ := p
  rfl

/-- The drawing commands emitted for one detection depend on the incoming
context only through its font (which feeds `ctx.measureText`). -/
theorem drawPred_cmds_congr (m : Measure) (p : Prediction) (c₁ c₂ : CtxState)
    (hf : c₁.font = c₂.font) : (drawPred m c₁ p).2 = (drawPred m c₂ p).2 := by
  obtain ⟨⟨x, y, w, h⟩, l, cf⟩ := p
  simp [drawPred, hf]

/-- The whole command list of a detection-list draw depends on the
incoming context only through its font. -/
theorem drawRun_cmds_congr (m : Measure) (D : List Prediction) :
    ∀ c₁ c₂ : CtxState, c₁.font = c₂.font →
      (drawPredictionsRun m c₁ D).2 = (drawPredictionsRun m c₂ D).2 := by
  induction D with
  | nil => intro c₁ c₂ _; rfl
  | cons p rest ih =>
    intro c₁ c₂ hf
    show (drawPred m c₁ p).2 ++ (drawPredictionsRun m (drawPred m c₁ p).1 rest).2 =
      (drawPred m c₂ p).2 ++ (drawPredictionsRun m (drawPred m c₂ p).1 rest).2
    rw [drawPred_cmds_congr m p c₁ c₂ hf, drawPred_fst m c₁ p, drawPred_fst m c₂ p]

/-- Drawing never moves the context font away from `18px Arial` once it is
there. -/
theorem drawRun_font_preserved (m : Measure) (D : List Prediction) :
    ∀ c : CtxState, c.font = "18px Arial" →
      (drawPredictionsRun m c D).1.font = "18px Arial" := by
  induction D with
  | nil => intro c hf; exact hf
  | cons p rest ih =>
    intro c hf
    show (drawPredictionsRun m (drawPred m c p).1 rest).1.font = "18px Arial"
    exact ih _ (by rw [drawPred_fst])

/-- C4: rendering the single-detection list of the worked example — box
(10,20,30,40), label `Original`, confidence 0.97 — emits, for every text
metrics oracle and every incoming context, exactly the three canvas calls
of `drawPredictions`: one stroked rectangle, at position (10,20) with
width 30 and height 40, in the authentic color `#00FF00`; the label
background; and the label text exactly `Original: 97%` (confidence rounded
to a whole percent).  The authentic color is reserved for the label
`Original`, every other label is drawn in `#FF0000`, and the two colors
are distinct. -/
theorem C4_single_detection_draw (m : Measure) (c : CtxState) :
    (drawPredictionsRun m c [demoDetection]).2 =
      [DrawCmd.strokeRect "#00FF00" 3 10 20 30 40,
       DrawCmd.fillRect "#00FF00" 10 20 (m c.font "Original: 97%" + 10) 24,
       DrawCmd.fillText "#FFFFFF" "18px Arial" "Original: 97%" 15 18] ∧
    labelColor "Original" = "#00FF00" ∧
    (∀ l : String, l ≠ "Original" → labelColor l = "#FF0000") ∧
    "#00FF00" ≠ "#FF0000" := by
  refine ⟨?_, rfl, ?_, by decide⟩
  · have hb : demoDetection.box = ((10:ℚ), 20, 30, 40) := rfl
    have hlab : demoDetection.label = "Original" := rfl
    have hy : ¬ ((20:ℚ) > 24) := by norm_num
    simp [drawPredictionsRun, drawPred, labelColor, demoText, hb, hlab, hy]
    norm_num
  · intro l hl
    simp [labelColor, hl]

/-- C4 witness: the drawn command list at the concrete metrics oracle
`measureDemo` and the page's initial context, and the non-authentic color
of the label `Fake`. -/
theorem C4_single_detection_draw_witness :
    (drawPredictionsRun measureDemo initState.ctx [demoDetection]).2 =
      [DrawCmd.strokeRect "#00FF00" 3 10 20 30 40,
       DrawCmd.fillRect "#00FF00" 10 20
         (measureDemo initState.ctx.font "Original: 97%" + 10) 24,
       DrawCmd.fillText "#FFFFFF" "18px Arial" "Original: 97%" 15 18] ∧
    labelColor "Fake" = "#FF0000" :=
  ⟨(C4_single_detection_draw measureDemo initState.ctx).1,
   (C4_single_detection_draw measureDemo initState.ctx).2.2.1 "Fake" (by decide)⟩

/-- C5 counterexample: from the page's initial canvas context (whose font
is the browser default, not `18px Arial`), drawing the example detection
list twice with the surface cleared in between does NOT emit identical
commands.  The first draw measures the label background with the default
font, while the second measures it with the `18px Arial` the first draw
left in the context (`clearRect` does not reset context attributes), so
the two background rectangles differ in width.  This falsifies the claim
that rendering is idempotent for every initial drawing-context state. -/
theorem C5_counterexample :
    (drawPredictionsRun measureDemo
        (drawPredictionsRun measureDemo initState.ctx [demoDetection]).1
        [demoDetection]).2 ≠
      (drawPredictionsRun measureDemo initState.ctx [demoDetection]).2 := by
  have hb : demoDetection.box = ((10:ℚ), 20, 30, 40) := rfl
  have hlab : demoDetection.label = "Original" := rfl
  have hy : ¬ ((20:ℚ) > 24) := by norm_num
  simp [drawPredictionsRun, drawPred, labelColor, demoText, hb, hlab, hy,
    measureDemo, initState]

/-- C5 (amended): when the incoming context font is already `18px Arial` —
as it is whenever at least one detection has ever been drawn, since
`drawPredictions` always leaves that font behind — rendering any detection
list twice in succession with the surface cleared between the draws emits
identical command lists (hence identical pixels on the cleared surface),
for every metrics oracle. -/
theorem C5_amended_idempotent (m : Measure) (c : CtxState)
    (D : List Prediction) (hf : c.font = "18px Arial") :
    (drawPredictionsRun m (drawPredictionsRun m c D).1 D).2 =
      (drawPredictionsRun m c D).2 := by
  apply drawRun_cmds_congr
  rw [drawRun_font_preserved m D c hf, hf]

/-- C5 witness: the amended idempotence at the concrete oracle
`measureDemo`, an `18px Arial` context, and the example detection list. -/
theorem C5_amended_idempotent_witness :
    (drawPredictionsRun measureDemo
        (drawPredictionsRun measureDemo arialCtx [demoDetection]).1
        [demoDetection]).2 =
      (drawPredictionsRun measureDemo arialCtx [demoDetection]).2 :=
  C5_amended_idempotent measureDemo arialCtx [demoDetection] rfl

/-- C1 counterexample: start a session, let one prediction request go out,
stop the session — the slot is empty right after stop — then let the
outstanding request resolve with a successful response.  The resolution
code after the `await` (script.js line 113) never re-checks `isDetecting`,
so it writes the response into the detection slot: the late response DOES
resurrect the slot after stop, falsifying the claim for the success
case. -/
theorem C1_counterexample :
    (run measureDemo initState
        [Event.startClick, Event.cameraOk 0, Event.loadedMetadata 1,
         Event.predictionTick, Event.stopClick]).1.latestPredictions = [] ∧
    (run measureDemo initState
        [Event.startClick, Event.cameraOk 0, Event.loadedMetadata 1,
         Event.predictionTick, Event.stopClick,
         Event.predictionResolve
           (FetchOutcome.response 200 (some [demoDetection]))]).1.latestPredictions
        = [demoDetection] ∧
    [demoDetection] ≠ ([] : List Prediction) ∧
    (run measureDemo initState
        [Event.startClick, Event.cameraOk 0, Event.loadedMetadata 1,
         Event.predictionTick, Event.stopClick,
         Event.predictionResolve
           (FetchOutcome.response 200 (some [demoDetection]))]).1.isDetecting
        = false :=
  ⟨rfl, rfl, by decide, rfl⟩

/-- C1 (amended): after stop (active flag false, detection slot empty), a
late resolution that fails — transport error, non-success status, or a
success status with an unparseable body — leaves the slot empty; but a
late SUCCESS resolution overwrites the slot with its detections even
though the session is stopped, because `predictionLoop` has no active-flag
guard after the `await`. -/
theorem C1_amended_late_response (s : AppState) (st : ℕ)
    (b : Option (List Prediction)) (ps : List Prediction)
    (hactive : s.isDetecting = false) (_hslot : s.latestPredictions = []) :
    (predictionResolve s FetchOutcome.transportError).1.latestPredictions = [] ∧
    (statusOk st = false →
      (predictionResolve s (FetchOutcome.response st b)).1.latestPredictions = []) ∧
    (predictionResolve s (FetchOutcome.response st none)).1.latestPredictions = [] ∧
    (statusOk st = true →
      (predictionResolve s (FetchOutcome.response st (some ps))).1.latestPredictions = ps) ∧
    (predictionResolve s (FetchOutcome.response st (some ps))).1.isDetecting = false := by
  cases hok : statusOk st with
  | false => simp [predictionResolve, hok, hactive]
  | true => simp [predictionResolve, hok, hactive]

/-- C1 witness: the amended statement at the stopped initial state, a 200
response, and the example detection list. -/
theorem C1_amended_late_response_witness :
    (predictionResolve initState FetchOutcome.transportError).1.latestPredictions = [] ∧
    (statusOk 200 = false →
      (predictionResolve initState
        (FetchOutcome.response 200 (some [demoDetection]))).1.latestPredictions = []) ∧
    (predictionResolve initState
      (FetchOutcome.response 200 none)).1.latestPredictions = [] ∧
    (statusOk 200 = true →
      (predictionResolve initState
        (FetchOutcome.response 200 (some [demoDetection]))).1.latestPredictions
        = [demoDetection]) ∧
    (predictionResolve initState
      (FetchOutcome.response 200 (some [demoDetection]))).1.isDetecting = false :=
  C1_amended_late_response initState 200 (some [demoDetection]) [demoDetection] rfl rfl

/-- C2: a prediction cycle whose response has a non-success HTTP status,
or whose transport fails, puts the system in exactly the prior state with
the detection slot emptied (regardless of its prior contents), emits no
effects at all — in particular no retry request — and leaves the interval
timer and the active flag untouched, so the loop simply continues. -/
theorem C2_failure_clears_slot (s : AppState) (st : ℕ)
    (b : Option (List Prediction)) (hfail : statusOk st = false) :
    predictionResolve s (FetchOutcome.response st b) =
      ({ s with latestPredictions := [] }, []) ∧
    predictionResolve s FetchOutcome.transportError =
      ({ s with latestPredictions := [] }, []) ∧
    (predictionResolve s (FetchOutcome.response st b)).1.latestPredictions = [] ∧
    (predictionResolve s (FetchOutcome.response st b)).1.predictionIntervalId =
      s.predictionIntervalId ∧
    (predictionResolve s (FetchOutcome.response st b)).1.isDetecting = s.isDetecting ∧
    Eff.sendPredictRequest ∉ (predictionResolve s (FetchOutcome.response st b)).2 := by
  simp [predictionResolve, hfail]

/-- C2 witness: a simulated HTTP 500 against a state whose slot holds the
example detection empties the slot and emits nothing. -/
theorem C2_failure_clears_slot_witness :
    predictionResolve { initState with latestPredictions := [demoDetection] }
        (FetchOutcome.response 500 none) =
      ({ { initState with latestPredictions := [demoDetection] } with
          latestPredictions := [] }, []) ∧
    predictionResolve { initState with latestPredictions := [demoDetection] }
        FetchOutcome.transportError =
      ({ { initState with latestPredictions := [demoDetection] } with
          latestPredictions := [] }, []) ∧
    (predictionResolve { initState with latestPredictions := [demoDetection] }
        (FetchOutcome.response 500 none)).1.latestPredictions = [] ∧
    (predictionResolve { initState with latestPredictions := [demoDetection] }
        (FetchOutcome.response 500 none)).1.predictionIntervalId =
      ({ initState with latestPredictions := [demoDetection] } : AppState).predictionIntervalId ∧
    (predictionResolve { initState with latestPredictions := [demoDetection] }
        (FetchOutcome.response 500 none)).1.isDetecting =
      ({ initState with latestPredictions := [demoDetection] } : AppState).isDetecting ∧
    Eff.sendPredictRequest ∉
      (predictionResolve { initState with latestPredictions := [demoDetection] }
        (FetchOutcome.response 500 none)).2 :=
  C2_failure_clears_slot { initState with latestPredictions := [demoDetection] } 500 none rfl

/-- C3 counterexample: when camera acquisition fails, the `catch` writes
the permission-error message (script.js line 44) but then calls
`stopDetection()` (line 45), whose first action overwrites the status
surface with the idle prompt (line 56).  The final observable status is
therefore the idle message, not the permission-error message, falsifying
the claim that the final state surfaces the error text. -/
theorem C3_counterexample :
    (run measureDemo initState [Event.startClick, Event.cameraFail]).1.statusText
      = idleMsg ∧
    idleMsg ≠ webcamErrorMsg :=
  ⟨rfl, by decide⟩

/-- C3 (amended): on camera-acquisition failure from a fresh page state,
the permission-error message is written to the status surface but is
immediately overwritten by `stopDetection()`, so the final status reads
the idle prompt; `stop()` has indeed run, so no partial session state
remains — the active flag is false, no stream or timer is held, the slot
is empty, the video element is detached, and no track-stop is attempted.
The effect trace records the transient error write followed by the idle
overwrite. -/
theorem C3_amended_failed_start (m : Measure) (s : AppState)
    (hstream : s.stream = none) (hint : s.predictionIntervalId = none) :
    (run m s [Event.startClick, Event.cameraFail]).1.isDetecting = false ∧
    (run m s [Event.startClick, Event.cameraFail]).1.stream = none ∧
    (run m s [Event.startClick, Event.cameraFail]).1.latestPredictions = [] ∧
    (run m s [Event.startClick, Event.cameraFail]).1.videoSrcObject = none ∧
    (run m s [Event.startClick, Event.cameraFail]).1.predictionIntervalId = none ∧
    (run m s [Event.startClick, Event.cameraFail]).1.statusText = idleMsg ∧
    (run m s [Event.startClick, Event.cameraFail]).2 =
      [Eff.setStatus initializingMsg, Eff.requestCamera,
       Eff.setStatus webcamErrorMsg, Eff.setStatus idleMsg,
       Eff.clearIntervalTimer none, Eff.clearCanvas] := by
  simp [run, step, startDetection, cameraDenied, stopDetection, hstream, hint]

/-- C3 witness: the amended failed-start behavior at the page's initial
state. -/
theorem C3_amended_failed_start_witness :
    (run measureDemo initState [Event.startClick, Event.cameraFail]).1.isDetecting
      = false ∧
    (run measureDemo initState [Event.startClick, Event.cameraFail]).1.stream = none ∧
    (run measureDemo initState
      [Event.startClick, Event.cameraFail]).1.latestPredictions = [] ∧
    (run measureDemo initState
      [Event.startClick, Event.cameraFail]).1.videoSrcObject = none ∧
    (run measureDemo initState
      [Event.startClick, Event.cameraFail]).1.predictionIntervalId = none ∧
    (run measureDemo initState [Event.startClick, Event.cameraFail]).1.statusText
      = idleMsg ∧
    (run measureDemo initState [Event.startClick, Event.cameraFail]).2 =
      [Eff.setStatus initializingMsg, Eff.requestCamera,
       Eff.setStatus webcamErrorMsg, Eff.setStatus idleMsg,
       Eff.clearIntervalTimer none, Eff.clearCanvas] :=
  C3_amended_failed_start measureDemo initState rfl rfl

/-- C6 counterexample: `startDetection` sets `isDetecting = true` on its
very first line (script.js line 27), before `getUserMedia` resolves.
During an execution in which acquisition fails, the state after the
synchronous entry of `start()` already has the active flag true while no
stream is held — falsifying the claim that the flag flips to true only
after camera access has been granted and the stream stored. -/
theorem C6_counterexample :
    (run measureDemo initState [Event.startClick]).1.isDetecting = true ∧
    (run measureDemo initState [Event.startClick]).1.stream = none ∧
    (run measureDemo initState [Event.startClick, Event.cameraFail]).1.isDetecting
      = false :=
  ⟨rfl, rfl, rfl⟩

/-- C6 (amended): `start()` sets the active flag to true unconditionally at
entry, before acquisition, so during a failed acquisition the flag is
transiently true with no stream held; the failure handler then calls
`stop()`, so once the failed execution completes the flag is false and no
stream is held. -/
theorem C6_amended_flag_set_early (m : Measure) (s : AppState)
    (hstream : s.stream = none) :
    (step m s Event.startClick).1.isDetecting = true ∧
    (step m s Event.startClick).1.stream = none ∧
    (run m s [Event.startClick, Event.cameraFail]).1.isDetecting = false ∧
    (run m s [Event.startClick, Event.cameraFail]).1.stream = none := by
  simp [run, step, startDetection, cameraDenied, stopDetection, hstream]

/-- C6 witness: the amended early-flag behavior at the page's initial
state. -/
theorem C6_amended_flag_set_early_witness :
    (step measureDemo initState Event.startClick).1.isDetecting = true ∧
    (step measureDemo initState Event.startClick).1.stream = none ∧
    (run measureDemo initState [Event.startClick, Event.cameraFail]).1.isDetecting
      = false ∧
    (run measureDemo initState [Event.startClick, Event.cameraFail]).1.stream
      = none :=
  C6_amended_flag_set_early measureDemo initState rfl

/-- C8 counterexample: after a full session (start, camera granted,
metadata loaded, stop), the `stream` variable still holds the old stream
handle and `predictionIntervalId` still holds the old timer id, because
`stopDetection` releases the resources but never nulls the variables.  A
second `stop()` call — made while no session is active — therefore stops
the tracks of that stale stream again and re-issues the interval clear:
duplicate cleanup, falsifying the claim that a stop when already stopped
performs none. -/
theorem C8_counterexample :
    (run measureDemo initState
      [Event.startClick, Event.cameraOk 0, Event.loadedMetadata 1,
       Event.stopClick]).1.isDetecting = false ∧
    Eff.stopTracks 0 ∈
      (stopDetection (run measureDemo initState
        [Event.startClick, Event.cameraOk 0, Event.loadedMetadata 1,
         Event.stopClick]).1).2 ∧
    Eff.clearIntervalTimer (some 1) ∈
      (stopDetection (run measureDemo initState
        [Event.startClick, Event.cameraOk 0, Event.loadedMetadata 1,
         Event.stopClick]).1).2 :=
  ⟨rfl, by decide, by decide⟩

/-- C8 (amended): `stop()` never raises (it is a total function of the
state), it is idempotent on the state — a second `stop()` changes nothing
beyond what the first already set — and when no stream handle is held it
stops no tracks; but because `stopDetection` does not clear the `stream`
variable, a `stop()` issued while a previous session's handle is still
held re-stops that (already stopped) stream's tracks — duplicate, though
harmless, cleanup. -/
theorem C8_amended_stop_idempotent (s : AppState) :
    (stopDetection (stopDetection s).1).1 = (stopDetection s).1 ∧
    (s.stream = none → ∀ sid : ℕ, Eff.stopTracks sid ∉ (stopDetection s).2) := by
  refine ⟨rfl, ?_⟩
  intro h sid
  simp [stopDetection, h]

/-- C8 witness: state idempotence and absence of track-stops at the fresh
initial state, which holds no stream. -/
theorem C8_amended_stop_idempotent_witness :
    (stopDetection (stopDetection initState).1).1 = (stopDetection initState).1 ∧
    Eff.stopTracks 0 ∉ (stopDetection initState).2 :=
  ⟨(C8_amended_stop_idempotent initState).1,
   (C8_amended_stop_idempotent initState).2 rfl 0⟩

/-- C9: every `renderLoop` activation that observes the active flag true
ends by rescheduling itself via `requestAnimationFrame`; and the first
activation that observes the flag false returns immediately — no state
change, no drawing, and no reschedule — so the loop stops within one
frame of the flag becoming false. -/
theorem C9_render_reschedule (m : Measure) (s : AppState) :
    (s.isDetecting = true →
      Eff.scheduleAnimationFrame ∈ (renderLoop m s).2) ∧
    (s.isDetecting = false → renderLoop m s = (s, [])) := by
  constructor
  · intro h
    simp [renderLoop, h, drawPredictions]
  · intro h
    simp [renderLoop, h]

/-- C9 witness: an active state reschedules, the idle initial state
terminates the loop with no effects. -/
theorem C9_render_reschedule_witness :
    Eff.scheduleAnimationFrame ∈
      (renderLoop measureDemo { initState with isDetecting := true }).2 ∧
    renderLoop measureDemo initState = (initState, []) :=
  ⟨(C9_render_reschedule measureDemo { initState with isDetecting := true }).1 rfl,
   (C9_render_reschedule measureDemo initState).2 rfl⟩

/-- C10: a success-status response whose body fails to parse as JSON takes
the same `catch` as a transport failure — the resolution is literally the
same state transformation and effect list: the slot is emptied, nothing
else changes, no effect is emitted, the interval timer and the active flag
survive, and the loop continues. -/
theorem C10_parse_failure_like_network_failure (s : AppState) :
    predictionResolve s (FetchOutcome.response 200 none) =
      predictionResolve s FetchOutcome.transportError ∧
    (predictionResolve s (FetchOutcome.response 200 none)).1.latestPredictions = [] ∧
    (predictionResolve s (FetchOutcome.response 200 none)).1.predictionIntervalId =
      s.predictionIntervalId ∧
    (predictionResolve s (FetchOutcome.response 200 none)).1.isDetecting =
      s.isDetecting ∧
    (predictionResolve s (FetchOutcome.response 200 none)).2 = [] :=
  ⟨rfl, rfl, rfl, rfl, rfl⟩

/-- A render-loop activation never changes the detection slot, whether or
not the session is active. -/
theorem renderLoop_slot (m : Measure) (s : AppState) :
    (renderLoop m s).1.latestPredictions = s.latestPredictions := by
  cases hd : s.isDetecting <;> simp [renderLoop, hd]

/-- The synchronous part of a prediction-loop activation (up to the
`fetch`) never changes the state at all. -/
theorem predictionLoop_fst (s : AppState) : (predictionLoop s).1 = s := by
  cases hd : s.isDetecting <;> simp [predictionLoop, hd]

/-- C7 counterexample: a reachable execution in which the detection slot
is written by a component other than the prediction loop.  After a session
has filled the slot with a detection, clicking stop — a session-controller
activation — changes the slot (it empties it, script.js line 68),
falsifying the claim that only prediction-loop activations write the
slot. -/
theorem C7_counterexample :
    (step measureDemo (run measureDemo initState
        [Event.startClick, Event.cameraOk 0, Event.loadedMetadata 1,
         Event.predictionTick,
         Event.predictionResolve
           (FetchOutcome.response 200 (some [demoDetection]))]).1
      Event.stopClick).1.latestPredictions ≠
      (run measureDemo initState
        [Event.startClick, Event.cameraOk 0, Event.loadedMetadata 1,
         Event.predictionTick,
         Event.predictionResolve
           (FetchOutcome.response 200 (some [demoDetection]))]).1.latestPredictions ∧
    eventComponent Event.stopClick ≠ Component.predictionLoopC := by
  constructor
  · show ([] : List Prediction) ≠ [demoDetection]
    decide
  · decide

/-- C7 (amended): the detection slot is written only by prediction-loop
resolutions and by the session controller's `stopDetection` (which clears
it to empty, whether reached from the stop button or from the camera
failure path); and the slot is read only by render-loop activations —
every other handler's effects and non-slot state transformation are
oblivious to the slot's contents. -/
theorem C7_amended_slot_access :
    (∀ (m : Measure) (s : AppState) (e : Event),
        (step m s e).1.latestPredictions ≠ s.latestPredictions →
        eventComponent e = Component.predictionLoopC ∨
          (eventComponent e = Component.sessionController ∧
           (step m s e).1.latestPredictions = [])) ∧
    (∀ (m : Measure) (e : Event) (s₁ s₂ : AppState), e ≠ Event.renderFrame →
        agreeExceptSlot s₁ s₂ →
        (step m s₁ e).2 = (step m s₂ e).2 ∧
        agreeExceptSlot (step m s₁ e).1 (step m s₂ e).1) := by
  constructor
  · intro m s e h
    cases e with
    | startClick => exact absurd rfl h
    | cameraOk sid => exact absurd rfl h
    | cameraFail => exact Or.inr ⟨rfl, rfl⟩
    | loadedMetadata i => exact absurd rfl h
    | stopClick => exact Or.inr ⟨rfl, rfl⟩
    | renderFrame => exact absurd (renderLoop_slot m s) h
    | predictionTick =>
      exact absurd (congrArg AppState.latestPredictions (predictionLoop_fst s)) h
    | predictionResolve o => exact Or.inl rfl
  · intro m e s₁ s₂ hne hag
    obtain ⟨h1, h2, h3, h4, h5, h6, h7, h8⟩ := hag
    cases e with
    | startClick =>
      exact ⟨rfl, h1, rfl, h3, rfl, rfl, rfl, h7, h8⟩
    | cameraOk sid =>
      exact ⟨rfl, rfl, h2, h3, h4, h5, h6, rfl, h8⟩
    | cameraFail =>
      refine ⟨?_, ?_⟩ <;>
        simp [step, cameraDenied, stopDetection, agreeExceptSlot,
          h1, h2, h3, h4, h5, h6, h7, h8]
    | loadedMetadata i =>
      exact ⟨rfl, h1, h2, rfl, rfl, h5, h6, h7, h8⟩
    | stopClick =>
      refine ⟨?_, ?_⟩ <;>
        simp [step, stopDetection, agreeExceptSlot,
          h1, h2, h3, h4, h5, h6, h7, h8]
    | renderFrame => exact absurd rfl hne
    | predictionTick =>
      cases hd : s₂.isDetecting <;>
        simp [step, predictionLoop, agreeExceptSlot, h2, hd,
          h1, h3, h4, h5, h6, h7, h8]
    | predictionResolve o =>
      cases o with
      | transportError =>
        exact ⟨rfl, h1, h2, h3, h4, h5, h6, h7, h8⟩
      | response st b =>
        cases hok : statusOk st
        · simp [step, predictionResolve, hok, agreeExceptSlot,
            h1, h2, h3, h4, h5, h6, h7, h8]
        · cases b <;>
            simp [step, predictionResolve, hok, agreeExceptSlot,
              h1, h2, h3, h4, h5, h6, h7, h8]

/-- C7 witness: the writer classification at a stop click on a state whose
slot holds the example detection, and the reader obliviousness of that
same stop click across two states differing only in the slot. -/
theorem C7_amended_slot_access_witness :
    (eventComponent Event.stopClick = Component.predictionLoopC ∨
      (eventComponent Event.stopClick = Component.sessionController ∧
       (step measureDemo { initState with latestPredictions := [demoDetection] }
          Event.stopClick).1.latestPredictions = [])) ∧
    ((step measureDemo { initState with latestPredictions := [demoDetection] }
        Event.stopClick).2 = (step measureDemo initState Event.stopClick).2 ∧
      agreeExceptSlot
        (step measureDemo { initState with latestPredictions := [demoDetection] }
          Event.stopClick).1
        (step measureDemo initState Event.stopClick).1) :=
  ⟨C7_amended_slot_access.1 measureDemo
      { initState with latestPredictions := [demoDetection] } Event.stopClick
      (by decide),
   C7_amended_slot_access.2 measureDemo Event.stopClick
      { initState with latestPredictions := [demoDetection] } initState
      (by decide) ⟨rfl, rfl, rfl, rfl, rfl, rfl, rfl, rfl⟩⟩

end Liveliness
